import Mathlib

/-
Verification development for the parabody GPU particle pipeline
(src/structures.rs, src/pipeline.rs).

The host-side orchestration layer is embedded shallowly:

* Device buffers are lists of bodies; the two particle buffers are
  zero-initialised at creation (wgpu zero-initialises buffers created with
  mapped_at_creation = false) and hold exactly max_bodies records.
* All f32 payload fields (body position / mass / velocity / mu, and dt) are
  only ever stored and byte-copied by the code in scope, never combined
  arithmetically, so they are carried exactly as rationals.
* u32 arithmetic that can wrap is modelled on Nat with explicit % 2^32.
* The compute kernel itself is out of scope (an opaque program dispatched by
  entry-point name); a dispatch that executes is modelled by an arbitrary
  function from (device config, source buffer contents, old destination
  contents) to new destination contents.  A dispatch of zero workgroups
  executes no kernel invocation and leaves the destination unchanged.
* Fatal failures (assert! / .expect panics) are modelled as error values;
  write_bodies additionally returns the state as it stands at the moment of
  the panic, since the fields mutated before the panicking statement have
  already been written.
-/

def u32Mod : ℕ := 2 ^ 32

/-- size_of::<Body>(): 8 f32 fields, repr(C, align(16)) ⇒ 32 bytes. -/
def bodySize : ℕ := 32

/-- Body (src/structures.rs lines 28-35): position [f32;3], mass f32,
velocity [f32;3], mu f32.  The fields are opaque 32-bit payloads here
(copied byte-for-byte, never computed on), carried as exact rationals. -/
structure Body where
  position : ℚ × ℚ × ℚ
  mass : ℚ
  velocity : ℚ × ℚ × ℚ
  mu : ℚ
deriving DecidableEq

/-- derive(Default) on Body: all fields zero, matching the zero bytes a
freshly created wgpu buffer holds. -/
def Body.default : Body :=
  { position := (0, 0, 0), mass := 0, velocity := (0, 0, 0), mu := 0 }

/-- StaticConfig (src/structures.rs lines 4-7): max_bodies is a u32. -/
structure StaticConfig where
  max_bodies : ℕ
deriving DecidableEq

/-- DynamicConfig (src/structures.rs lines 10-16): num_bodies u32, dt f32,
_pad [u32;2]. -/
structure DynamicConfig where
  num_bodies : ℕ
  dt : ℚ
  pad : ℕ × ℕ
deriving DecidableEq

/-- DynamicConfig::default (src/structures.rs lines 18-26):
num_bodies = 0, dt = 3600.0, _pad = [0,0]. -/
def DynamicConfig.default : DynamicConfig :=
  { num_bodies := 0, dt := 3600, pad := (0, 0) }

/-- SourceBuffer (src/pipeline.rs lines 29-33). -/
inductive SourceBuffer where
  | A
  | B
deriving DecidableEq

/-- SourceBuffer::other (src/pipeline.rs lines 36-41). -/
def SourceBuffer.other : SourceBuffer → SourceBuffer
  | .A => .B
  | .B => .A

/-- The observable state of a Pipeline (src/pipeline.rs lines 16-27).
device_config is the contents of the device-side config buffer; bufA and
bufB are the contents of body_buffers[0] and body_buffers[1]. -/
structure Pipeline where
  active_source : SourceBuffer
  dynamic_config : DynamicConfig
  device_config : DynamicConfig
  bufA : List Body
  bufB : List Body
  static_config : StaticConfig
deriving DecidableEq

/-- synchronize_dynamic_config (src/pipeline.rs lines 181-192): byte-copies
the host DynamicConfig into the device config buffer. -/
def synchronizeDynamicConfig (s : Pipeline) : Pipeline :=
  { s with device_config := s.dynamic_config }

/-- The state assembled at the end of Pipeline::create (src/pipeline.rs
lines 139-174): default DynamicConfig, zero-initialised body buffers of
max_bodies records each, active_source = A, followed by the initial
synchronize_dynamic_config call. -/
def initState (sc : StaticConfig) : Pipeline :=
  synchronizeDynamicConfig
    { active_source := .A
      dynamic_config := DynamicConfig.default
      device_config := DynamicConfig.default
      bufA := List.replicate sc.max_bodies Body.default
      bufB := List.replicate sc.max_bodies Body.default
      static_config := sc }

inductive CreateError where
  | templateError (msg : String)
deriving DecidableEq

/-- Pipeline::create (src/pipeline.rs lines 45-175).  The tera template
engine is an external crate; its outcome on the given template is passed in
as rendered : Except String String.  The code unwraps a render failure with
.expect ("Failed to render shader from template"), a fatal construction
failure, modelled as an error result; on success the rendered text (and
nothing else) becomes the compiled kernel source, returned here alongside
the initial state. -/
def Pipeline.create (rendered : Except String String) (_entry_point : String)
    (sc : StaticConfig) : Except CreateError (String × Pipeline) :=
  match rendered with
  | .error e => .error (.templateError e)
  | .ok src => .ok (src, initState sc)

/-- Pipeline::set_dt (src/pipeline.rs lines 177-179). -/
def Pipeline.set_dt (s : Pipeline) (dt : ℚ) : Pipeline :=
  { s with dynamic_config := { s.dynamic_config with dt := dt } }

/-- The mapped byte length in write_bodies (line 198) and read_bodies
(line 216): (num_bodies * size_of::<Body>() as u32) is a u32 product and
wraps modulo 2^32 before being widened to u64. -/
def mapUpperBound (num_bodies : ℕ) : ℕ :=
  (num_bodies * bodySize) % u32Mod

inductive WriteError where
  | capacityExceeded
  | copyLengthMismatch
deriving DecidableEq

/-- Pipeline::write_bodies (src/pipeline.rs lines 194-212).
Order of effects, as in the source:
1. assert!(input.len() <= max_bodies) — fires before any mutation;
2. num_bodies := input.len() as u32;
3. map the first (num_bodies * 32 : u32) bytes of the buffer selected by
   active_source (A ⇒ body_buffers[0], B ⇒ body_buffers[1]);
4. copy_from_slice — panics if the mapped length differs from the host
   slice length input.len() * 32 (which happens exactly when the u32
   product wrapped), writing nothing in that case.
The returned Pipeline is the state on normal return, or the state as it
stands at the moment of the panic. -/
def Pipeline.write_bodies (s : Pipeline) (input : List Body) :
    Option WriteError × Pipeline :=
  if s.static_config.max_bodies < input.length then
    (some .capacityExceeded, s)
  else
    let s1 := { s with
      dynamic_config := { s.dynamic_config with
        num_bodies := input.length % u32Mod } }
    if mapUpperBound s1.dynamic_config.num_bodies ≠ input.length * bodySize then
      (some .copyLengthMismatch, s1)
    else
      match s1.active_source with
      | .A => (none, { s1 with bufA := input ++ s1.bufA.drop input.length })
      | .B => (none, { s1 with bufB := input ++ s1.bufB.drop input.length })

/-- The buffer read_bodies maps: body_buffers[1] when A is active,
body_buffers[0] when B is active (src/pipeline.rs lines 217-220) — the
buffer that is not currently the active source. -/
def nonActiveBuf (s : Pipeline) : List Body :=
  match s.active_source with
  | .A => s.bufB
  | .B => s.bufA

/-- Pipeline::read_bodies (src/pipeline.rs lines 214-228): takes &self (no
field can be mutated); maps the first (num_bodies * 32 : u32) bytes of the
non-active buffer and returns them reinterpreted as bodies, i.e. the first
mapUpperBound / 32 records.  The second component is the state after the
call, unchanged. -/
def Pipeline.read_bodies (s : Pipeline) : List Body × Pipeline :=
  ((nonActiveBuf s).take (mapUpperBound s.dynamic_config.num_bodies / bodySize),
    s)

/-- Bounded base-2 logarithm: floor of log2 for inputs below 2^64, by
structural recursion on a fuel argument so the kernel can evaluate it. -/
def ilog2Aux : ℕ → ℕ → ℕ
  | 0, _ => 0
  | fuel + 1, n => if n < 2 then 0 else ilog2Aux fuel (n / 2) + 1

def ilog2 (n : ℕ) : ℕ := ilog2Aux 64 n

/-- Round-to-nearest-even of a natural number to a 24-bit significand: the
value of (n as f32) for n < 2^64.  Naturals up to 2^24 are exact; above
that the value is rounded to the nearest multiple of 2^(⌊log2 n⌋ - 23),
ties to the even multiple. -/
def roundF32 (n : ℕ) : ℕ :=
  if n ≤ 2 ^ 24 then n
  else
    let ulp := 2 ^ (ilog2 n - 23)
    let q := n / ulp
    let r := n % ulp
    if 2 * r < ulp then q * ulp
    else if ulp < 2 * r then (q + 1) * ulp
    else if q % 2 = 0 then q * ulp else (q + 1) * ulp

/-- The workgroup count of each dispatch (src/pipeline.rs lines 283-287):
(num_bodies as f32 / 64.0).ceil() as u32.  The u32→f32 conversion rounds to
nearest-even (roundF32); dividing a binary32 value by 64.0 only shifts its
exponent and is exact here (no underflow or overflow for num_bodies < 2^32),
and .ceil() of that exact value is an integer below 2^26, again exact; so
the whole expression equals the integer ceiling of roundF32 n / 64. -/
def dispatchWorkgroups (n : ℕ) : ℕ :=
  (roundF32 n + 63) / 64

/-- One iteration of the dispatch loop in submit_and_block (src/pipeline.rs
lines 275-289): bind (source, destination) = (A, B) when A is active and
(B, A) when B is active, dispatch dispatchWorkgroups (dynamic_config
num_bodies) workgroups — zero workgroups executes no kernel invocation —
and toggle active_source.  k is the opaque kernel: from the device config
and the source contents (and the previous destination contents, which an
arbitrary kernel may leave partly intact) to the new destination
contents. -/
def runPass (k : DynamicConfig → List Body → List Body → List Body)
    (s : Pipeline) : Pipeline :=
  let wg := dispatchWorkgroups s.dynamic_config.num_bodies
  let s1 :=
    if wg = 0 then s
    else
      match s.active_source with
      | .A => { s with bufB := k s.device_config s.bufA s.bufB }
      | .B => { s with bufA := k s.device_config s.bufB s.bufA }
  { s1 with active_source := s1.active_source.other }

def runPasses (k : DynamicConfig → List Body → List Body → List Body) :
    ℕ → Pipeline → Pipeline
  | 0, s => s
  | n + 1, s => runPasses k n (runPass k s)

/-- Pipeline::submit_and_block (src/pipeline.rs lines 230-305): first
synchronize_dynamic_config (line 232), then num_passes loop iterations,
then one submission and a blocking wait (no further state change). -/
def Pipeline.submit_and_block
    (k : DynamicConfig → List Body → List Body → List Body)
    (num_passes : ℕ) (s : Pipeline) : Pipeline :=
  runPasses k num_passes (synchronizeDynamicConfig s)

/-- Field invariants every state reachable through the API satisfies: the
two device buffers hold exactly max_bodies records, num_bodies never
exceeds max_bodies, and the u32 byte product num_bodies * 32 has not
wrapped (a write large enough to wrap it panics in copy_from_slice before
committing, so no completed operation produces such a state). -/
def WellFormed (s : Pipeline) : Prop :=
  s.bufA.length = s.static_config.max_bodies ∧
  s.bufB.length = s.static_config.max_bodies ∧
  s.dynamic_config.num_bodies ≤ s.static_config.max_bodies ∧
  s.dynamic_config.num_bodies * bodySize < u32Mod

instance (s : Pipeline) : Decidable (WellFormed s) := by
  unfold WellFormed; infer_instance

/-- A concrete nonzero body used in witnesses: mass 1, everything else 0. -/
def bodyOne : Body :=
  { position := (0, 0, 0), mass := 1, velocity := (0, 0, 0), mu := 0 }

/-- A concrete kernel for witnesses: copies the source buffer to the
destination unchanged. -/
def copyKernel : DynamicConfig → List Body → List Body → List Body :=
  fun _ src _ => src

theorem SourceBuffer.other_other (b : SourceBuffer) : b.other.other = b := by
  cases b <;> rfl

theorem runPass_active (k : DynamicConfig → List Body → List Body → List Body)
    (s : Pipeline) :
    (runPass k s).active_source = s.active_source.other := by
  unfold runPass
  dsimp only
  split
  · rfl
  · cases s.active_source <;> rfl

theorem runPass_dynamic (k : DynamicConfig → List Body → List Body → List Body)
    (s : Pipeline) :
    (runPass k s).dynamic_config = s.dynamic_config := by
  unfold runPass
  dsimp only
  split
  · rfl
  · cases s.active_source <;> rfl

theorem runPass_device (k : DynamicConfig → List Body → List Body → List Body)
    (s : Pipeline) :
    (runPass k s).device_config = s.device_config := by
  unfold runPass
  dsimp only
  split
  · rfl
  · cases s.active_source <;> rfl

theorem runPass_static (k : DynamicConfig → List Body → List Body → List Body)
    (s : Pipeline) :
    (runPass k s).static_config = s.static_config := by
  unfold runPass
  dsimp only
  split
  · rfl
  · cases s.active_source <;> rfl

theorem runPasses_active (k : DynamicConfig → List Body → List Body → List Body)
    (n : ℕ) (s : Pipeline) :
    (runPasses k n s).active_source =
      if Even n then s.active_source else s.active_source.other := by
  induction n generalizing s with
  | zero => simp [runPasses]
  | succ m ih =>
    rw [runPasses, ih, runPass_active]
    by_cases hm : Even m
    · simp [hm, Nat.even_add_one]
    · simp [hm, Nat.even_add_one, SourceBuffer.other_other]

theorem runPasses_dynamic (k : DynamicConfig → List Body → List Body → List Body)
    (n : ℕ) (s : Pipeline) :
    (runPasses k n s).dynamic_config = s.dynamic_config := by
  induction n generalizing s with
  | zero => rfl
  | succ m ih => rw [runPasses, ih, runPass_dynamic]

theorem wellFormed_initState (sc : StaticConfig) : WellFormed (initState sc) := by
  refine ⟨?_, ?_, ?_, ?_⟩
  · simp [initState, synchronizeDynamicConfig]
  · simp [initState, synchronizeDynamicConfig]
  · simp [initState, synchronizeDynamicConfig, DynamicConfig.default]
  · simp [initState, synchronizeDynamicConfig, DynamicConfig.default, u32Mod]

theorem wellFormed_set_dt (s : Pipeline) (v : ℚ) (h : WellFormed s) :
    WellFormed (s.set_dt v) :=
  h

theorem wellFormed_synchronize (s : Pipeline) (h : WellFormed s) :
    WellFormed (synchronizeDynamicConfig s) :=
  h

theorem wellFormed_write_bodies (s : Pipeline) (input : List Body)
    (h : WellFormed s) (hok : (s.write_bodies input).1 = none) :
    WellFormed (s.write_bodies input).2 := by
  obtain ⟨hA, hB, _, _⟩ := h
  unfold Pipeline.write_bodies at hok ⊢
  dsimp only at hok ⊢
  by_cases hc : s.static_config.max_bodies < input.length
  · rw [if_pos hc] at hok
    exact absurd hok (by simp)
  · rw [if_neg hc] at hok ⊢
    by_cases hw :
        mapUpperBound (input.length % u32Mod) ≠ input.length * bodySize
    · rw [if_pos hw] at hok
      exact absurd hok (by simp)
    · rw [if_neg hw] at hok ⊢
      push_neg at hw
      have hlt : input.length * bodySize < u32Mod := by
        rw [← hw]
        exact Nat.mod_lt _ (by norm_num [u32Mod])
      have hlen : input.length < u32Mod := by
        have : input.length ≤ input.length * bodySize :=
          Nat.le_mul_of_pos_right _ (by norm_num [bodySize])
        omega
      have hmod : input.length % u32Mod = input.length := Nat.mod_eq_of_lt hlen
      have hle : input.length ≤ s.static_config.max_bodies := Nat.not_lt.mp hc
      cases hsrc : s.active_source <;>
        simp [hsrc, WellFormed, hmod, hlt, hA, hB, hle,
          Nat.add_sub_cancel' hle]

theorem wellFormed_runPass (k : DynamicConfig → List Body → List Body → List Body)
    (hk : ∀ c src old, (k c src old).length = old.length)
    (s : Pipeline) (h : WellFormed s) : WellFormed (runPass k s) := by
  obtain ⟨hA, hB, h3, h4⟩ := h
  unfold runPass
  dsimp only
  split
  · exact ⟨hA, hB, h3, h4⟩
  · cases hsrc : s.active_source <;>
      simp [WellFormed, hsrc, hk, hA, hB, h3, h4]

theorem wellFormed_runPasses (k : DynamicConfig → List Body → List Body → List Body)
    (hk : ∀ c src old, (k c src old).length = old.length)
    (n : ℕ) (s : Pipeline) (h : WellFormed s) : WellFormed (runPasses k n s) := by
  induction n generalizing s with
  | zero => exact h
  | succ m ih => exact ih _ (wellFormed_runPass k hk s h)

theorem wellFormed_submit_and_block
    (k : DynamicConfig → List Body → List Body → List Body)
    (hk : ∀ c src old, (k c src old).length = old.length)
    (n : ℕ) (s : Pipeline) (h : WellFormed s) :
    WellFormed (Pipeline.submit_and_block k n s) :=
  wellFormed_runPasses k hk n _ (wellFormed_synchronize s h)

theorem wellFormed_read_bodies (s : Pipeline) (h : WellFormed s) :
    WellFormed (s.read_bodies).2 :=
  h

/-- Claim C2: the Pipeline starts in state A-active; the active-buffer
state toggles exactly once per loop iteration of submit_and_block, i.e.
once per dispatched kernel invocation, not once per batch; hence after
submit_and_block n the active-buffer state equals the state before the
call when n is even and is the opposite state when n is odd — for every
kernel and every starting state. -/
theorem pingpong_parity :
    (∀ sc, (initState sc).active_source = SourceBuffer.A) ∧
    (∀ k s, (runPass k s).active_source = s.active_source.other) ∧
    (∀ k n s, (Pipeline.submit_and_block k n s).active_source =
      if Even n then s.active_source else s.active_source.other) := by
  refine ⟨fun sc => rfl, runPass_active, fun k n s => ?_⟩
  unfold Pipeline.submit_and_block
  rw [runPasses_active]
  rfl

/-- Claim C3: write_particles with more input records than max_particles
fails with CapacityExceeded (the assert! on src/pipeline.rs line 195, a
fatal precondition failure) and returns with every Pipeline field —
active_count, the active-buffer flag and both device particle buffers —
exactly as it was: the assertion fires before any mutation. -/
theorem capacity_guard (s : Pipeline) (input : List Body)
    (h : s.static_config.max_bodies < input.length) :
    s.write_bodies input = (some WriteError.capacityExceeded, s) := by
  unfold Pipeline.write_bodies
  rw [if_pos h]

/-- Witness for capacity_guard: a pipeline of capacity 1 rejects a
two-record write and is returned unchanged. -/
theorem capacity_guard_witness :
    (initState ⟨1⟩).static_config.max_bodies < ([bodyOne, bodyOne] : List Body).length ∧
    (initState ⟨1⟩).write_bodies [bodyOne, bodyOne] =
      (some WriteError.capacityExceeded, initState ⟨1⟩) :=
  ⟨by decide, capacity_guard (initState ⟨1⟩) [bodyOne, bodyOne] (by decide)⟩

/-- Claim C6: set_dt updates only the in-memory DynamicConfig dt field —
device config buffer, both particle buffers and the active flag are
untouched — and the next submit_and_block runs synchronize_dynamic_config
first, so the dispatch loop starts from a state whose device-side dt is
the newly set value. -/
theorem set_dt_deferred_sync (s : Pipeline) (v : ℚ) :
    (s.set_dt v).dynamic_config = { s.dynamic_config with dt := v } ∧
    (s.set_dt v).device_config = s.device_config ∧
    (s.set_dt v).bufA = s.bufA ∧
    (s.set_dt v).bufB = s.bufB ∧
    (s.set_dt v).active_source = s.active_source ∧
    (∀ k n, Pipeline.submit_and_block k n (s.set_dt v) =
      runPasses k n (synchronizeDynamicConfig (s.set_dt v))) ∧
    (synchronizeDynamicConfig (s.set_dt v)).device_config.dt = v :=
  ⟨rfl, rfl, rfl, rfl, rfl, fun _ _ => rfl, rfl⟩

/-- Claim C7: when template rendering fails (missing, malformed or
unknown-field placeholder — reported by the template engine as a render
error), Pipeline construction fails hard at the rendering step; on success
the compiled kernel source is exactly the rendered text, never a
default. -/
theorem template_failure_fatal :
    (∀ e ep sc, Pipeline.create (.error e) ep sc =
      .error (CreateError.templateError e)) ∧
    (∀ src ep sc, Pipeline.create (.ok src) ep sc = .ok (src, initState sc)) :=
  ⟨fun _ _ _ => rfl, fun _ _ _ => rfl⟩

/-- Claim C8: construction takes no dt parameter and initializes
DynamicConfig to its Default — active_count 0 and dt 3600.0 — and neither
write_particles nor submit_and_block changes dt, so dt stays 3600.0 until
set_dt is called. -/
theorem create_default_config :
    (∀ sc, (initState sc).dynamic_config = DynamicConfig.default) ∧
    DynamicConfig.default.num_bodies = 0 ∧
    DynamicConfig.default.dt = 3600 ∧
    (∀ s input, ((Pipeline.write_bodies s input).2).dynamic_config.dt =
      s.dynamic_config.dt) ∧
    (∀ k n s, (Pipeline.submit_and_block k n s).dynamic_config.dt =
      s.dynamic_config.dt) := by
  refine ⟨fun sc => rfl, rfl, rfl, fun s input => ?_, fun k n s => ?_⟩
  · unfold Pipeline.write_bodies
    dsimp only
    split
    · rfl
    · split
      · rfl
      · split <;> rfl
  · unfold Pipeline.submit_and_block
    rw [runPasses_dynamic]
    rfl

/-- Claim C9: in both write_bodies and read_bodies the mapped byte length
is the u32 product num_bodies * 32, i.e. (num_bodies * 32) mod 2^32
(mapUpperBound, used by both definitions); whenever num_bodies exceeds
2^27 that is fewer bytes than num_bodies 32-byte particles. -/
theorem map_length_wraps :
    (∀ n, mapUpperBound n = (n * 32) % 2 ^ 32) ∧
    (∀ s, s.read_bodies.1 =
      (nonActiveBuf s).take (mapUpperBound s.dynamic_config.num_bodies / 32)) ∧
    (∀ n, 2 ^ 27 < n → mapUpperBound n < n * 32) := by
  refine ⟨fun n => rfl, fun s => rfl, fun n h => ?_⟩
  have h1 : mapUpperBound n < 2 ^ 32 :=
    Nat.mod_lt _ (by norm_num [u32Mod])
  have h2 : (2 : ℕ) ^ 32 < n * 32 := by
    have hn : 2 ^ 27 + 1 ≤ n := h
    calc (2 : ℕ) ^ 32 < (2 ^ 27 + 1) * 32 := by norm_num
    _ ≤ n * 32 := Nat.mul_le_mul_right 32 hn
  exact lt_trans h1 h2

/-- Witness for map_length_wraps: at num_bodies = 2^27 + 1 the mapped
length is smaller than the full particle byte count. -/
theorem map_length_wraps_witness :
    2 ^ 27 < 2 ^ 27 + 1 ∧ mapUpperBound (2 ^ 27 + 1) < (2 ^ 27 + 1) * 32 :=
  ⟨by norm_num, map_length_wraps.2.2 (2 ^ 27 + 1) (by norm_num)⟩

/-- Claim C10: the active-buffer flag changes only inside the dispatch loop
of submit_and_block: write_bodies (in every outcome, including the panic
ones), set_dt, read_bodies (which returns the state unchanged) and the
synchronize_dynamic_config step that precedes the loop all leave
active_source as it was, while each loop iteration toggles it. -/
theorem active_flag_isolation :
    (∀ s input, ((Pipeline.write_bodies s input).2).active_source =
      s.active_source) ∧
    (∀ s v, (Pipeline.set_dt s v).active_source = s.active_source) ∧
    (∀ s, (Pipeline.read_bodies s).2 = s) ∧
    (∀ s, (synchronizeDynamicConfig s).active_source = s.active_source) ∧
    (∀ k s, (runPass k s).active_source = s.active_source.other) := by
  refine ⟨fun s input => ?_, fun s v => rfl, fun s => rfl, fun s => rfl,
    runPass_active⟩
  unfold Pipeline.write_bodies
  dsimp only
  split
  · rfl
  · split
    · rfl
    · split <;> rfl

/-- Claim C4: on every well-formed pipeline state (the invariants every
state reachable through the API satisfies, by the wellFormed_* lemmas
above), read_bodies returns exactly the first active_count records of the
buffer that is not currently active — bufB when A is active, bufA when B is
active, which is what nonActiveBuf denotes — as an exact copy, of length
exactly active_count, and returns the Pipeline state unchanged. -/
theorem read_bodies_spec (s : Pipeline) (h : WellFormed s) :
    s.read_bodies = ((nonActiveBuf s).take s.dynamic_config.num_bodies, s) ∧
    (s.read_bodies.1).length = s.dynamic_config.num_bodies := by
  obtain ⟨hA, hB, h3, h4⟩ := h
  have hub : mapUpperBound s.dynamic_config.num_bodies =
      s.dynamic_config.num_bodies * bodySize := Nat.mod_eq_of_lt h4
  have hdiv : mapUpperBound s.dynamic_config.num_bodies / bodySize =
      s.dynamic_config.num_bodies := by
    rw [hub]
    simp [bodySize]
  have hlen : (nonActiveBuf s).length = s.static_config.max_bodies := by
    cases hsrc : s.active_source <;> simp [nonActiveBuf, hsrc, hA, hB]
  constructor
  · unfold Pipeline.read_bodies
    rw [hdiv]
  · unfold Pipeline.read_bodies
    dsimp only
    rw [hdiv, List.length_take, hlen]
    exact Nat.min_eq_left h3

/-- Witness for read_bodies_spec: the state after writing one body into a
fresh capacity-2 pipeline is well formed and reading back returns exactly
one record. -/
theorem read_bodies_spec_witness :
    WellFormed ((initState ⟨2⟩).write_bodies [bodyOne]).2 ∧
    ((((initState ⟨2⟩).write_bodies [bodyOne]).2.read_bodies).1).length =
      ((initState ⟨2⟩).write_bodies [bodyOne]).2.dynamic_config.num_bodies :=
  ⟨by decide, (read_bodies_spec ((initState ⟨2⟩).write_bodies [bodyOne]).2 (by decide)).2⟩

/-- Counterexample to claim C5 as stated: at active_count = 2^24 + 1 (legal
whenever max_particles ≥ 2^24 + 1) the dispatched workgroup count is
262144, but the integer ceiling of (2^24 + 1) / 64 is 262145 — the u32
value is converted to f32 before the division and 2^24 + 1 is not
representable in binary32, so it rounds down to 2^24. -/
theorem workgroup_f32_cex :
    dispatchWorkgroups (2 ^ 24 + 1) = 262144 ∧
    (2 ^ 24 + 1 + 63) / 64 = 262145 := by
  decide

/-- Claim C5 amended: each of the num_steps dispatches recorded by
submit_and_block uses workgroup count ceil(f32(active_count) / 64), which
equals the integer ceiling of active_count / 64 for every active_count up
to 2^24 (where the f32 conversion is exact) but not beyond; the host
num_bodies field is untouched by each pass, so all num_steps dispatches of
one batch use that same count. -/
theorem workgroup_int_ceil :
    (∀ n, n ≤ 2 ^ 24 → dispatchWorkgroups n = (n + 63) / 64) ∧
    (∀ k s, (runPass k s).dynamic_config = s.dynamic_config) := by
  refine ⟨fun n h => ?_, runPass_dynamic⟩
  unfold dispatchWorkgroups roundF32
  rw [if_pos h]

/-- Witness for workgroup_int_ceil: 100 bodies dispatch ⌈100/64⌉ = 2
workgroups. -/
theorem workgroup_int_ceil_witness :
    (100 : ℕ) ≤ 2 ^ 24 ∧ dispatchWorkgroups 100 = (100 + 63) / 64 :=
  ⟨by norm_num, workgroup_int_ceil.1 100 (by norm_num)⟩

/-- Claim C1 fails on the code: on a fresh capacity-1 pipeline, writing one
nonzero body succeeds (it goes into the active buffer A), submit_and_block
with zero steps toggles nothing, and read_bodies then maps the non-active
buffer B — still holding its zero-initialised creation contents — so the
round trip returns the zero body, not the written one. -/
theorem zero_step_roundtrip_fails :
    ((initState ⟨1⟩).write_bodies [bodyOne]).1 = none ∧
    ((((initState ⟨1⟩).write_bodies [bodyOne]).2.submit_and_block
        copyKernel 0).read_bodies).1 = [Body.default] ∧
    [Body.default] ≠ [bodyOne] := by
  decide
